import Mathlib

/-!
Shallow embedding of the CVitae LaTeX service (`src/latex-service/app.py`)
together with theorems checking the natural-language specification against it.

External effects (process invocations, file existence, log-file contents) are
supplied by explicit environment records; pure string processing is translated
directly from the Python source.
-/

set_option maxRecDepth 4000
set_option linter.unusedVariables false

/-! ## Character and string helpers (Python semantics) -/

/-- The apostrophe character, written by code point to keep it out of literals. -/
def squote : Char := Char.ofNat 39

/-- The backtick character, written by code point to keep it out of literals. -/
def backtick : Char := Char.ofNat 96

/-- The opening curly brace character `\x7b`. -/
def openBrace : Char := Char.ofNat 123

/-- The closing curly brace character `\x7d`. -/
def closeBrace : Char := Char.ofNat 125

/-- Python `\s` / `str.strip` whitespace over ASCII: space, tab, newline,
carriage return, vertical tab, form feed. -/
def isSpaceChar (c : Char) : Bool :=
  c = ' ' || c = '\t' || c = '\n' || c = '\r' || c = Char.ofNat 11 || c = Char.ofNat 12

/-- Match a literal character sequence `p` at the head of `s`; on success
return the remainder of `s`. -/
def matchLit : List Char → List Char → Option (List Char)
  | [], s => some s
  | _ :: _, [] => none
  | p :: ps, c :: cs => if c = p then matchLit ps cs else none

/-- Does the character sequence `p` occur (contiguously) anywhere in `s`?
This is Python's `p in s` substring test. -/
def occurs (p : List Char) : List Char → Bool
  | [] => (matchLit p []).isSome
  | c :: cs => (matchLit p (c :: cs)).isSome || occurs p cs

/-- Python `pat in s` substring containment on strings. -/
def containsSub (s pat : String) : Bool := occurs pat.toList s.toList

/-- Python `str.rstrip()`: drop trailing whitespace. -/
def pyRstrip (s : String) : String :=
  String.mk ((s.toList.reverse.dropWhile isSpaceChar).reverse)

/-- Python `s[-n:]`: the last `n` characters of `s` (all of `s` when shorter). -/
def lastSlice (n : Nat) (s : String) : String :=
  String.mk ((s.toList.reverse.take n).reverse)

/-- Python `str.lower()` over ASCII, character by character. -/
def pyLower (s : String) : String := String.mk (s.toList.map Char.toLower)

theorem matchLit_eq_some : ∀ (p s r : List Char), matchLit p s = some r → s = p ++ r := by
  intro p
  induction p with
  | nil => intro s r h; simpa [matchLit] using h
  | cons a ps ih =>
    intro s r h
    cases s with
    | nil => simp [matchLit] at h
    | cons c cs =>
      simp only [matchLit] at h
      by_cases hc : c = a
      · rw [if_pos hc] at h
        have := ih cs r h
        simp [hc, this]
      · rw [if_neg hc] at h
        exact absurd h (by simp)

theorem occurs_eq_true_exists (p : List Char) :
    ∀ s : List Char, occurs p s = true → ∃ pre r, s = pre ++ (p ++ r) := by
  intro s
  induction s with
  | nil =>
    intro h
    simp only [occurs, Option.isSome_iff_exists] at h
    obtain ⟨r, hr⟩ := h
    refine ⟨[], r, ?_⟩
    simpa using matchLit_eq_some p [] r hr
  | cons c cs ih =>
    intro h
    simp only [occurs, Bool.or_eq_true, Option.isSome_iff_exists] at h
    rcases h with ⟨r, hr⟩ | h
    · exact ⟨[], r, by simpa using matchLit_eq_some p (c :: cs) r hr⟩
    · obtain ⟨pre, r, hpr⟩ := ih h
      exact ⟨c :: pre, r, by simp [hpr]⟩

/-- A string containing the `\documentclass` token is not all-whitespace
(Python: `not s or not s.strip()` is false for it). -/
theorem not_blank_of_containsSub_documentclass (src : String)
    (h : containsSub src "\\documentclass" = true) :
    src.toList.all isSpaceChar = false := by
  obtain ⟨pre, r, hpr⟩ := occurs_eq_true_exists _ _ h
  have hp : ("\\documentclass".toList.all isSpaceChar) = false := by decide
  rw [hpr, List.all_append, List.all_append, hp, Bool.false_and, Bool.and_false]

/-! ## Process results and the pdflatex fallback loop -/

/-- The observable pieces of a `subprocess.CompletedProcess`. -/
structure ProcResult where
  returncode : Int
  stdout : String
  stderr : String
deriving DecidableEq

/-- Outcome of one external process invocation: either it completes with a
`ProcResult`, or the invocation itself raises a Python exception whose text
is recorded. -/
inductive RunOutcome where
  | ok : ProcResult → RunOutcome
  | exn : String → RunOutcome
deriving DecidableEq

/-- The loop body of `try_direct_pdflatex` (`app.py` lines 240-266).
`rem` counts the iterations remaining after the current one (the source runs
`for i in range(3)`, so the loop starts with `rem = 2`), and `i` is the index
of the current pass. `runs i` is what `subprocess.run` does on pass `i`.
Returns the `CompletedProcess` the Python function returns, paired with the
number of passes actually attempted. An exception raised by any pass is
caught by the function's `except` clause, which returns
`CompletedProcess([], 1, "", str(e))`. -/
def tdpLoop (runs : Nat → RunOutcome) : Nat → Nat → ProcResult × Nat
  | 0, i =>
    match runs i with
    | .exn m => (⟨1, "", m⟩, i + 1)
    | .ok r => (r, i + 1)
  | rem + 1, i =>
    match runs i with
    | .exn m => (⟨1, "", m⟩, i + 1)
    | .ok r => if r.returncode = 0 then (r, i + 1) else tdpLoop runs rem (i + 1)

/-- `try_direct_pdflatex` (`app.py` lines 238-266): up to 3 sequential
pdflatex passes over the same source file, stopping at the first pass that
exits zero, returning the last pass's result otherwise, and converting any
raised exception into a `returncode = 1` result. -/
def try_direct_pdflatex (runs : Nat → RunOutcome) : ProcResult × Nat :=
  tdpLoop runs 2 0

theorem tdpLoop_snd_le (runs : Nat → RunOutcome) :
    ∀ rem i, (tdpLoop runs rem i).2 ≤ i + rem + 1 := by
  intro rem
  induction rem with
  | zero =>
    intro i
    cases h : runs i <;> simp [tdpLoop, h]
  | succ rem ih =>
    intro i
    cases h : runs i with
    | exn m =>
      simp [tdpLoop, h]
      try omega
    | ok r =>
      by_cases hz : r.returncode = 0
      · simp [tdpLoop, h, hz]
        try omega
      · have := ih (i + 1)
        simp [tdpLoop, h, hz]
        omega

/-- At most three fallback passes are ever attempted. -/
theorem try_direct_pdflatex_passes_le (runs : Nat → RunOutcome) :
    (try_direct_pdflatex runs).2 ≤ 3 :=
  tdpLoop_snd_le runs 2 0

/-- If every pass completes (no exception), every earlier pass exits nonzero,
and pass `k < 3` exits zero, the loop returns pass `k`'s result after exactly
`k + 1` passes. -/
theorem tdp_first_success (runs : Nat → RunOutcome) (rs : Nat → ProcResult)
    (hok : ∀ j, runs j = .ok (rs j)) (k : Nat) (hk : k < 3)
    (hzero : (rs k).returncode = 0)
    (hprev : ∀ j, j < k → ¬ (rs j).returncode = 0) :
    try_direct_pdflatex runs = (rs k, k + 1) := by
  interval_cases k
  · simp [try_direct_pdflatex, tdpLoop, hok 0, hzero]
  · have h0 := hprev 0 (by omega)
    simp [try_direct_pdflatex, tdpLoop, hok 0, hok 1, h0, hzero]
  · have h0 := hprev 0 (by omega)
    have h1 := hprev 1 (by omega)
    simp [try_direct_pdflatex, tdpLoop, hok 0, hok 1, hok 2, h0, h1, hzero]

/-- If every pass completes and all three exit nonzero, the loop returns the
third pass's result after exactly 3 passes. -/
theorem tdp_all_fail (runs : Nat → RunOutcome) (rs : Nat → ProcResult)
    (hok : ∀ j, runs j = .ok (rs j))
    (hfails : ∀ j, j < 3 → ¬ (rs j).returncode = 0) :
    try_direct_pdflatex runs = (rs 2, 3) := by
  have h0 := hfails 0 (by omega)
  have h1 := hfails 1 (by omega)
  have h2 := hfails 2 (by omega)
  simp [try_direct_pdflatex, tdpLoop, hok 0, hok 1, hok 2, h0, h1, h2]

/-! ## Log classifier (`parse_latex_log`, `app.py` lines 183-229) -/

/-- Characters allowed in a captured command token: the regex class `[A-Za-z@]`. -/
def isCmdChar (c : Char) : Bool := c.isAlpha || c = '@'

/-- Match the regex `Undefined control sequence\.\s*l\.\d+\s+(\\[A-Za-z@]+)`
at the head of `s`; on success return the captured token (including the
backslash) and the remainder after the match. The regex is deterministic
(each greedy class is disjoint from what follows), so maximal munch is exact. -/
def matchUndefined (s : List Char) : Option (String × List Char) :=
  match matchLit ("Undefined control sequence.".toList) s with
  | none => none
  | some r1 =>
    let r2 := r1.dropWhile isSpaceChar
    match r2 with
    | 'l' :: '.' :: r3 =>
      let ds := r3.takeWhile Char.isDigit
      let r4 := r3.dropWhile Char.isDigit
      if ds.isEmpty then none
      else
        let ws := r4.takeWhile isSpaceChar
        let r5 := r4.dropWhile isSpaceChar
        if ws.isEmpty then none
        else
          match r5 with
          | '\\' :: r6 =>
            let ls := r6.takeWhile isCmdChar
            let r7 := r6.dropWhile isCmdChar
            if ls.isEmpty then none else some (String.mk ('\\' :: ls), r7)
          | _ => none
    | _ => none

/-- `re.findall` scanning for `matchUndefined`: left to right, non-overlapping,
advancing past each match. `fuel` bounds the recursion by the input length;
every step consumes at least one character, so the bound is never hit. -/
def findUndefinedAux : Nat → List Char → List String
  | 0, _ => []
  | _ + 1, [] => []
  | fuel + 1, c :: cs =>
    match matchUndefined (c :: cs) with
    | some (tok, rest) => tok :: findUndefinedAux fuel rest
    | none => findUndefinedAux fuel cs

/-- All captures of the undefined-control-sequence regex in `s`. -/
def findUndefined (s : List Char) : List String := findUndefinedAux s.length s

/-- Match the regex `! LaTeX Error: File `([^']+)' not found` at the head of
`s`; on success return the captured file name and the remainder. -/
def matchPackageFile (s : List Char) : Option (String × List Char) :=
  match matchLit ("! LaTeX Error: File ".toList ++ [backtick]) s with
  | none => none
  | some r1 =>
    let nm := r1.takeWhile (fun c => ¬ c = squote)
    let r2 := r1.dropWhile (fun c => ¬ c = squote)
    if nm.isEmpty then none
    else
      match r2 with
      | [] => none
      | _ :: r3 =>
        match matchLit (" not found".toList) r3 with
        | none => none
        | some r4 => some (String.mk nm, r4)

/-- `re.findall` scanning for `matchPackageFile`. -/
def findPackageAux : Nat → List Char → List String
  | 0, _ => []
  | _ + 1, [] => []
  | fuel + 1, c :: cs =>
    match matchPackageFile (c :: cs) with
    | some (nm, rest) => nm :: findPackageAux fuel rest
    | none => findPackageAux fuel cs

/-- All captures of the file-not-found regex in `s`. -/
def findPackage (s : List Char) : List String := findPackageAux s.length s

/-- Does `p` occur in `s` before the next newline? (the `.* not found` tail of
the font regex: `.` does not match a newline). -/
def searchNoNewline (p : List Char) : List Char → Bool
  | [] => (matchLit p []).isSome
  | c :: cs => (matchLit p (c :: cs)).isSome || (if c = '\n' then false else searchNoNewline p cs)

/-- Match the regex `Font .* not found` at the head of `s` (existence only). -/
def fontMatchAt (s : List Char) : Bool :=
  match matchLit ("Font ".toList) s with
  | none => false
  | some r => searchNoNewline (" not found".toList) r

/-- `re.search(r'Font .* not found', s)` as a Bool. -/
def fontSearch : List Char → Bool
  | [] => false
  | c :: cs => fontMatchAt (c :: cs) || fontSearch cs

/-- The `errors` dict of `parse_latex_log`, with its seven fixed categories. -/
structure LogErrors where
  missing_document : List String
  undefined_commands : List String
  lonely_items : List String
  misaligned_amp : List String
  missing_dollar : List String
  font_errors : List String
  package_errors : List String
deriving DecidableEq

/-- `errors.items()` in the dict's (insertion) order. -/
def logErrorsItems (e : LogErrors) : List (String × List String) :=
  [("missing_document", e.missing_document),
   ("undefined_commands", e.undefined_commands),
   ("lonely_items", e.lonely_items),
   ("misaligned_amp", e.misaligned_amp),
   ("missing_dollar", e.missing_dollar),
   ("font_errors", e.font_errors),
   ("package_errors", e.package_errors)]

/-- `parse_latex_log` (`app.py` lines 183-229). Note the early return for a
falsy (empty) log returns the freshly initialized dict with all seven
categories present and empty, without the final non-empty filter; Python's
`list(set(...))` deduplication is modelled by `List.dedup`. -/
def parse_latex_log (log_content : String) : List (String × List String) :=
  let errors0 : LogErrors := ⟨[], [], [], [], [], [], []⟩
  if log_content = "" then logErrorsItems errors0
  else
    let s := log_content.toList
    let errors : LogErrors :=
      { missing_document :=
          if occurs ("Missing \\begin{document}".toList) s then
            ["Document missing \\begin{document}"] else []
        undefined_commands := (findUndefined s).dedup
        lonely_items :=
          if occurs ("Lonely \\item".toList) s then
            ["\\item commands outside list environments"] else []
        misaligned_amp :=
          if occurs ("Misplaced alignment tab character &".toList) s then
            ["Unescaped & characters outside tables"] else []
        missing_dollar :=
          if occurs ("Missing $ inserted".toList) s then
            ["Unescaped $ characters or math mode issues"] else []
        font_errors := if fontSearch s then ["Missing font files"] else []
        package_errors := (findPackage s).dedup }
    (logErrorsItems errors).filter (fun kv => ¬ kv.2.isEmpty)

/-! ## Structural validator (`validate_latex`, `app.py` lines 386-423) -/

/-- The JSON body returned by the `/validate` endpoint. -/
structure ValidateResult where
  valid : Bool
  errors : List String
deriving DecidableEq

/-- `validate_latex` (`app.py` lines 397-419): collects missing-marker errors
and a brace-balance check, never touching the filesystem. -/
def validate_latex (latex_content : String) : ValidateResult :=
  let validation_errors : List String :=
    (if containsSub latex_content "\\documentclass" = false then
       ["Missing \\documentclass"] else []) ++
    (if containsSub latex_content "\\begin{document}" = false then
       ["Missing \\begin{document}"] else []) ++
    (if containsSub latex_content "\\end{document}" = false then
       ["Missing \\end{document}"] else []) ++
    (if ¬ (latex_content.toList.count openBrace = latex_content.toList.count closeBrace) then
       ["Unbalanced braces"] else [])
  ⟨validation_errors.length = 0, validation_errors⟩

/-! ## Workspace allocation (`app.py` lines 29-31, 54-56) -/

/-- `work_dir = self.temp_dir / f"{output_name}_{os.getpid()}"` where
`temp_dir = Path(tempfile.gettempdir()) / "cvitae_latex"`. The path depends
only on the job name and the OS process id. -/
def work_dir_name (tmpRoot : String) (output_name : String) (pid : Nat) : String :=
  tmpRoot ++ "/cvitae_latex/" ++ output_name ++ "_" ++ toString pid

/-- A compilation job as the spec describes it: a name plus a per-job token
distinguishing concurrently running jobs. The source's directory computation
uses only the name and the process id, never the token. -/
structure Job where
  name : String
  token : Nat
deriving DecidableEq

/-- The workspace directory the source allocates to a job running in the
service process `pid`: `work_dir_name` applied to the job's name alone. -/
def allocateWorkDir (tmpRoot : String) (pid : Nat) (j : Job) : String :=
  work_dir_name tmpRoot j.name pid

/-! ## Compilation orchestrator (`compile_latex_to_pdf`, `app.py` lines 33-135) -/

/-- Environment of one compilation request: the temp root, the service
process id, what the single latexmk invocation does, what each pdflatex
fallback pass does, the contents of `{output_name}.log` if that file exists
and is readable, and whether `{output_name}.pdf` exists after compilation. -/
structure Env where
  tmpRoot : String
  pid : Nat
  latexmkRun : RunOutcome
  pdflatexRuns : Nat → RunOutcome
  logFile : Option String
  pdfExists : Bool

/-- One line of the ERROR ANALYSIS section:
`f"{error_type.upper()}: {', '.join(errors)}\n"`. -/
def analysisLine (kv : String × List String) : String :=
  kv.1.map Char.toUpper ++ ": " ++ String.intercalate ", " kv.2 ++ "\n"

/-- The combined diagnostic of the failure path (`app.py` lines 92-118):
return code, stderr, stdout, trailing 2000-character log slice, and the
classified error analysis. -/
def buildErrorMsg (result : ProcResult) (log_content : String) : String :=
  let parsed_errors := if log_content = "" then [] else parse_latex_log log_content
  let msg := "LaTeX compilation failed (return code: " ++ toString result.returncode ++
    ")\nSTDERR: " ++ result.stderr ++ "\nSTDOUT: " ++ result.stdout
  let msg := if log_content = "" then msg else msg ++ "\nLOG: " ++ lastSlice 2000 log_content
  if parsed_errors = [] then msg
  else msg ++ "\n\nERROR ANALYSIS:\n" ++
    String.join ((parsed_errors.filter (fun kv => ¬ kv.2.isEmpty)).map analysisLine)

/-- Observable trace of one `compile_latex_to_pdf` call: the content written
to the `.tex` file (if reached), how many latexmk invocations ran, how many
fallback pdflatex passes ran, whether `cleanup` was invoked, and the returned
path or raised exception message. -/
structure CompileTrace where
  texWritten : Option String
  latexmkAttempts : Nat
  fallbackPasses : Nat
  cleanupCalled : Bool
  result : Except String String

/-- The result the orchestrator goes on to test (`app.py` lines 86-91): the
latexmk result if it exited zero, otherwise the fallback's result, paired
with the number of fallback passes run. -/
def chosenResult (env : Env) (r0 : ProcResult) : ProcResult × Nat :=
  if ¬ r0.returncode = 0 then try_direct_pdflatex env.pdflatexRuns else (r0, 0)

/-- `app.py` lines 54-130: everything after validation. The (possibly
repaired) content is written to the workspace, latexmk runs once, the
fallback runs only if latexmk exited nonzero, a nonzero final result raises
the combined diagnostic, a zero final result still raises
"PDF file was not generated" when the PDF file is absent, and otherwise the
PDF path is returned. No branch invokes `cleanup`. -/
def compile_run (env : Env) (content : String) (output_name : String) : CompileTrace :=
  let work_dir := work_dir_name env.tmpRoot output_name env.pid
  match env.latexmkRun with
  | .exn m => ⟨some content, 1, 0, false, .error m⟩
  | .ok r0 =>
    let rp := chosenResult env r0
    if ¬ rp.1.returncode = 0 then
      let log_content := env.logFile.getD ""
      ⟨some content, 1, rp.2, false, .error (buildErrorMsg rp.1 log_content)⟩
    else if env.pdfExists = false then
      ⟨some content, 1, rp.2, false, .error "PDF file was not generated"⟩
    else
      ⟨some content, 1, rp.2, false, .ok (work_dir ++ "/" ++ output_name ++ ".pdf")⟩

/-- `compile_latex_to_pdf` (`app.py` lines 33-135). The guard
`not latex_content or not latex_content.strip()` is equivalent to every
character being whitespace; missing `\documentclass` or `\begin{document}`
raise; a missing `\end{document}` is auto-repaired by appending it to the
right-stripped content. -/
def compile_latex_to_pdf (env : Env) (latex_content : String) (output_name : String) :
    CompileTrace :=
  if latex_content.toList.all isSpaceChar then
    ⟨none, 0, 0, false, .error "Empty LaTeX content provided"⟩
  else if containsSub latex_content "\\documentclass" = false then
    ⟨none, 0, 0, false, .error "LaTeX content missing \\documentclass declaration"⟩
  else if containsSub latex_content "\\begin{document}" = false then
    ⟨none, 0, 0, false, .error "LaTeX content missing \\begin{document}"⟩
  else
    compile_run env
      (if containsSub latex_content "\\end{document}" = false then
         pyRstrip latex_content ++ "\n\\end{document}"
       else latex_content)
      output_name

/-- `cleanup` (`app.py` lines 231-236): `shutil.rmtree` inside
`try/except`; a failed removal is logged and swallowed, never propagated. -/
def cleanup (rmtreeOutcome : Except String Unit) : Except String Unit :=
  match rmtreeOutcome with
  | .ok () => .ok ()
  | .error _ => .ok ()

/-! ## Raster converter (`pdf_to_image`, `app.py` lines 137-181) -/

/-- Environment of one `convert` invocation: its process result and whether
the output image file exists afterwards. -/
structure ImgEnv where
  convertRun : ProcResult
  outputExists : Bool
deriving DecidableEq

/-- `Path(p).parent`: the path up to the final slash. -/
def parentDir (p : String) : String :=
  let rest := p.toList.reverse.dropWhile (fun c => ¬ c = Char.ofNat 47)
  match rest with
  | [] => "."
  | _ :: [] => "/"
  | _ :: t => String.mk t.reverse

/-- `pdf_to_image` (`app.py` lines 137-181): the output file is
`work_dir / f"resume.{output_format}"` where `work_dir` is the input PDF's
parent directory; a nonzero convert exit or a missing output file raises. -/
def pdf_to_image (env : ImgEnv) (pdf_path : String) (output_format : String) (dpi : Nat) :
    Except String String :=
  let work_dir := parentDir pdf_path
  let output_file := work_dir ++ "/resume." ++ output_format
  if ¬ env.convertRun.returncode = 0 then
    .error ("Image conversion failed (return code: " ++ toString env.convertRun.returncode ++
      ")\nSTDERR: " ++ env.convertRun.stderr ++ "\nSTDOUT: " ++ env.convertRun.stdout)
  else if env.outputExists = false then
    .error "Image file was not generated"
  else
    .ok output_file

/-! ## HTTP endpoints (`app.py` lines 302-384) -/

/-- The relevant fields of the request JSON body. `none` models an absent key. -/
structure ReqData where
  latex : Option String
  name : Option String
  format : Option String
  dpi : Option Nat

/-- Trace of the `/compile/pdf` endpoint (`app.py` lines 302-334): the
compiler trace when the compiler ran, and the HTTP response (an error message
with status code, or the path of the file sent). Neither branch invokes
`cleanup`. -/
structure PdfEndpointTrace where
  compileTrace : Option CompileTrace
  response : Except (String × Nat) String

/-- `compile_to_pdf` (`app.py` lines 302-334). -/
def compile_to_pdf (env : Env) (data : ReqData) : PdfEndpointTrace :=
  match data.latex with
  | none => ⟨none, .error ("LaTeX content is required", 400)⟩
  | some latex_content =>
    let output_name := data.name.getD "resume"
    let t := compile_latex_to_pdf env latex_content output_name
    match t.result with
    | .error e => ⟨some t, .error (e, 500)⟩
    | .ok pdf_path => ⟨some t, .ok pdf_path⟩

/-- Trace of the `/compile/image` endpoint: the HTTP response (error message
with status, or sent file path with its MIME type) plus whether the
compilation and conversion steps were ever invoked. -/
structure ImageEndpointTrace where
  response : Except (String × Nat) (String × String)
  compileInvoked : Bool
  convertInvoked : Bool

/-- The endpoint's MIME lookup table (`app.py` lines 366-370). -/
def mimeMap : List (String × String) :=
  [("png", "image/png"), ("jpg", "image/jpeg"), ("jpeg", "image/jpeg")]

/-- `compile_to_image` (`app.py` lines 336-384): the format check at lines
355-357 happens before the compiler or the converter is invoked. -/
def compile_to_image (env : Env) (imgEnv : ImgEnv) (data : ReqData) : ImageEndpointTrace :=
  match data.latex with
  | none => ⟨.error ("LaTeX content is required", 400), false, false⟩
  | some latex_content =>
    let output_name := data.name.getD "resume"
    let format_type := pyLower (data.format.getD "png")
    let dpi := data.dpi.getD 300
    if ¬ (format_type ∈ ["png", "jpg", "jpeg"]) then
      ⟨.error ("Unsupported image format", 400), false, false⟩
    else
      let t := compile_latex_to_pdf env latex_content output_name
      match t.result with
      | .error e => ⟨.error (e, 500), true, false⟩
      | .ok pdf_path =>
        match pdf_to_image imgEnv pdf_path format_type dpi with
        | .error e => ⟨.error (e, 500), true, true⟩
        | .ok image_path =>
          ⟨.ok (image_path, (mimeMap.lookup format_type).getD "image/png"), true, true⟩

/-! ## Shared reduction lemmas -/

theorem compile_latex_valid (env : Env) (src name : String)
    (h1 : containsSub src "\\documentclass" = true)
    (h2 : containsSub src "\\begin{document}" = true) :
    compile_latex_to_pdf env src name =
      compile_run env
        (if containsSub src "\\end{document}" = false then
           pyRstrip src ++ "\n\\end{document}"
         else src) name := by
  have hnb := not_blank_of_containsSub_documentclass src h1
  unfold compile_latex_to_pdf
  rw [hnb, h1, h2]
  simp

theorem compile_run_shape (env : Env) (content name : String) :
    (compile_run env content name).texWritten = some content ∧
    (compile_run env content name).latexmkAttempts = 1 ∧
    (compile_run env content name).cleanupCalled = false := by
  unfold compile_run
  cases env.latexmkRun with
  | exn m => simp
  | ok r0 =>
    by_cases hz : (chosenResult env r0).1.returncode = 0 <;>
      by_cases hpx : env.pdfExists = false <;> simp [hz, hpx]

theorem compile_run_passes (env : Env) (content name : String) (r0 : ProcResult)
    (hlm : env.latexmkRun = .ok r0) :
    (compile_run env content name).fallbackPasses = (chosenResult env r0).2 := by
  simp only [compile_run, hlm]
  by_cases hz : (chosenResult env r0).1.returncode = 0 <;>
    by_cases hpx : env.pdfExists = false <;> simp [hz, hpx]

theorem compile_run_result_ok (env : Env) (content name : String) (r0 : ProcResult) (p : String)
    (hlm : env.latexmkRun = .ok r0) :
    (compile_run env content name).result = .ok p →
    (chosenResult env r0).1.returncode = 0 ∧ env.pdfExists = true := by
  simp only [compile_run, hlm]
  by_cases hz : (chosenResult env r0).1.returncode = 0 <;>
    by_cases hpx : env.pdfExists = false <;> simp [hz, hpx]

theorem compile_cleanup_false (env : Env) (src name : String) :
    (compile_latex_to_pdf env src name).cleanupCalled = false := by
  unfold compile_latex_to_pdf
  split
  · rfl
  · split
    · rfl
    · split
      · rfl
      · exact (compile_run_shape env _ name).2.2

/-! ## C4: workspace uniqueness -/

/-- C4: the claim says two concurrently running jobs, even with the same
output name, get distinct workspace directories, and that uniqueness does not
rely solely on the process identity. The source computes the directory from
the output name and `os.getpid()` alone, so two distinct concurrent jobs with
the same name inside one service process are allocated the same directory. -/
theorem c4_pid_collision :
    ∃ j1 j2 : Job, ¬ j1 = j2 ∧
      allocateWorkDir "/tmp" 42 j1 = allocateWorkDir "/tmp" 42 j2 :=
  ⟨⟨"resume", 0⟩, ⟨"resume", 1⟩, by decide, rfl⟩

/-! ## C10: exception containment in the fallback -/

/-- C10: `try_direct_pdflatex` never propagates an exception: if the first
pass to raise is pass `k` (every earlier pass completed with a nonzero exit),
the function catches it and returns a completed-process value with return
code 1, empty stdout, and the exception text as stderr. -/
theorem c10_exception_contained (runs : Nat → RunOutcome) (k : Nat) (m : String)
    (hk : k < 3) (hexn : runs k = .exn m)
    (hprev : ∀ j, j < k → ∃ r, runs j = .ok r ∧ ¬ r.returncode = 0) :
    try_direct_pdflatex runs = (⟨1, "", m⟩, k + 1) := by
  interval_cases k
  · simp [try_direct_pdflatex, tdpLoop, hexn]
  · obtain ⟨r0, h0, h0n⟩ := hprev 0 (by omega)
    simp [try_direct_pdflatex, tdpLoop, h0, h0n, hexn]
  · obtain ⟨r0, h0, h0n⟩ := hprev 0 (by omega)
    obtain ⟨r1, h1, h1n⟩ := hprev 1 (by omega)
    simp [try_direct_pdflatex, tdpLoop, h0, h0n, h1, h1n, hexn]

/-- C10 witness: a run whose first pass raises "boom" yields the contained
failure result. -/
theorem c10_exception_contained_witness :
    try_direct_pdflatex (fun _ => .exn "boom") = (⟨1, "", "boom"⟩, 1) :=
  c10_exception_contained (fun _ => .exn "boom") 0 "boom" (by omega) rfl
    (fun j hj => absurd hj (by omega))

/-! ## C7: unsupported image format rejected before any process runs -/

/-- C7: an image request whose (lowercased, defaulted) format is not png,
jpg or jpeg is rejected with the unsupported-format error and HTTP 400
before the compiler or the converter is ever invoked. -/
theorem c7_unsupported_format_rejected (env : Env) (imgEnv : ImgEnv) (data : ReqData)
    (s : String) (hlat : data.latex = some s)
    (hfmt : ¬ (pyLower (data.format.getD "png") ∈ (["png", "jpg", "jpeg"] : List String))) :
    (compile_to_image env imgEnv data).response = .error ("Unsupported image format", 400) ∧
    (compile_to_image env imgEnv data).compileInvoked = false ∧
    (compile_to_image env imgEnv data).convertInvoked = false := by
  simp [compile_to_image, hlat, hfmt]

/-- C7 witness: requesting format "bmp" is rejected with no compilation and
no conversion. -/
theorem c7_unsupported_format_rejected_witness :
    (compile_to_image ⟨"/tmp", 42, .ok ⟨0, "", ""⟩, fun _ => .ok ⟨0, "", ""⟩, none, true⟩
        ⟨⟨0, "", ""⟩, true⟩
        ⟨some "\\documentclass{article}", none, some "bmp", none⟩).response =
      .error ("Unsupported image format", 400) ∧
    (compile_to_image ⟨"/tmp", 42, .ok ⟨0, "", ""⟩, fun _ => .ok ⟨0, "", ""⟩, none, true⟩
        ⟨⟨0, "", ""⟩, true⟩
        ⟨some "\\documentclass{article}", none, some "bmp", none⟩).compileInvoked = false ∧
    (compile_to_image ⟨"/tmp", 42, .ok ⟨0, "", ""⟩, fun _ => .ok ⟨0, "", ""⟩, none, true⟩
        ⟨⟨0, "", ""⟩, true⟩
        ⟨some "\\documentclass{article}", none, some "bmp", none⟩).convertInvoked = false :=
  c7_unsupported_format_rejected _ _ _ "\\documentclass{article}" rfl (by decide)

/-! ## C6: raster output naming -/

/-- C6 counterexample: the claim says the image is written at
`{outputName}.{format}`. For a job named `cv` (PDF at `cv.pdf`), the source
writes `resume.png` — a path different from `cv.png`. -/
theorem c6_counterexample :
    pdf_to_image ⟨⟨0, "", ""⟩, true⟩ "/tmp/cvitae_latex/cv_42/cv.pdf" "png" 300 =
      .ok "/tmp/cvitae_latex/cv_42/resume.png" ∧
    ¬ ("/tmp/cvitae_latex/cv_42/resume.png" = "/tmp/cvitae_latex/cv_42/cv.png") :=
  ⟨rfl, by decide⟩

/-- C6 (amended): every successful conversion writes the image into the same
workspace directory as the input PDF, but at the fixed name
`resume.{format}`, independent of the job's output name. -/
theorem c6_fixed_output_name (env : ImgEnv) (pdf_path output_format : String) (dpi : Nat)
    (hrc : env.convertRun.returncode = 0) (hex : env.outputExists = true) :
    pdf_to_image env pdf_path output_format dpi =
      .ok (parentDir pdf_path ++ "/resume." ++ output_format) := by
  simp [pdf_to_image, hrc, hex]

/-- C6 witness: a successful conversion of `/tmp/x/cv.pdf` to png lands at
`/tmp/x/resume.png`. -/
theorem c6_fixed_output_name_witness :
    pdf_to_image ⟨⟨0, "", ""⟩, true⟩ "/tmp/x/cv.pdf" "png" 300 =
      .ok (parentDir "/tmp/x/cv.pdf" ++ "/resume." ++ "png") :=
  c6_fixed_output_name ⟨⟨0, "", ""⟩, true⟩ "/tmp/x/cv.pdf" "png" 300 rfl rfl

/-! ## C5: empty categories omitted -/

/-- C5 counterexample: the claim says the returned map never contains a key
with empty evidence, even for the empty string. On the empty string the early
return hands back the freshly initialized dict, so `missing_document` is
present with empty evidence and the result is not the empty map. -/
theorem c5_counterexample :
    ("missing_document", ([] : List String)) ∈ parse_latex_log "" ∧
    ¬ parse_latex_log "" = [] := by
  constructor <;> decide

/-- C5 (amended): for every non-empty log text the returned map contains no
key with empty evidence, and a non-empty log matching no recognized pattern
yields the empty map; the empty string instead returns the initialized dict
with all seven categories present and empty. -/
theorem c5_nonempty_filter (log : String) (h : ¬ log = "") :
    (∀ kv ∈ parse_latex_log log, ¬ kv.2 = []) ∧
    parse_latex_log "" = logErrorsItems ⟨[], [], [], [], [], [], []⟩ ∧
    (occurs ("Missing \\begin{document}".toList) log.toList = false →
     findUndefined log.toList = [] →
     occurs ("Lonely \\item".toList) log.toList = false →
     occurs ("Misplaced alignment tab character &".toList) log.toList = false →
     occurs ("Missing $ inserted".toList) log.toList = false →
     fontSearch log.toList = false →
     findPackage log.toList = [] →
     parse_latex_log log = []) := by
  refine ⟨?_, rfl, ?_⟩
  · intro kv hkv h2
    simp only [parse_latex_log, if_neg h] at hkv
    rw [List.mem_filter] at hkv
    simp [h2] at hkv
  · intro d1 d2 d3 d4 d5 d6 d7
    simp only [parse_latex_log, if_neg h]
    rw [d1, d2, d3, d4, d5, d6, d7]
    simp [logErrorsItems]

/-- C5 witness: a non-empty log matching nothing yields the empty map, and no
returned category is empty. -/
theorem c5_nonempty_filter_witness :
    (∀ kv ∈ parse_latex_log "nothing to see here", ¬ kv.2 = []) ∧
    parse_latex_log "" = logErrorsItems ⟨[], [], [], [], [], [], []⟩ ∧
    (occurs ("Missing \\begin{document}".toList) "nothing to see here".toList = false →
     findUndefined "nothing to see here".toList = [] →
     occurs ("Lonely \\item".toList) "nothing to see here".toList = false →
     occurs ("Misplaced alignment tab character &".toList) "nothing to see here".toList = false →
     occurs ("Missing $ inserted".toList) "nothing to see here".toList = false →
     fontSearch "nothing to see here".toList = false →
     findPackage "nothing to see here".toList = [] →
     parse_latex_log "nothing to see here" = []) :=
  c5_nonempty_filter "nothing to see here" (by decide)

/-! ## C8: deduplicated undefined-command evidence -/

/-- C8: for any log whose undefined-control-sequence captures contain exactly
two distinct tokens (one of them repeated), the `undefined_commands` entry of
the classifier's result holds exactly two evidence strings. -/
theorem c8_dedup_two (log : String)
    (hcard : (findUndefined log.toList).toFinset.card = 2)
    (hdup : ∃ x, 2 ≤ (findUndefined log.toList).count x) :
    ("undefined_commands", (findUndefined log.toList).dedup) ∈ parse_latex_log log ∧
    ((findUndefined log.toList).dedup).length = 2 := by
  have hlen : (findUndefined log.toList).dedup.length = 2 := by
    rw [← List.card_toFinset]
    exact hcard
  have hne : ¬ log = "" := by
    intro he
    rw [he] at hlen
    simp [findUndefined, findUndefinedAux] at hlen
  refine ⟨?_, hlen⟩
  have hnonempty : ¬ (findUndefined log.toList).dedup = [] := by
    intro h0
    rw [h0] at hlen
    simp at hlen
  simp only [parse_latex_log, if_neg hne]
  rw [List.mem_filter]
  constructor
  · simp [logErrorsItems]
  · simpa using hnonempty

/-- C8 witness: a log with captures `\alpha`, `\beta`, `\alpha` yields exactly
two entries. -/
theorem c8_dedup_two_witness :
    ("undefined_commands",
        (findUndefined ("Undefined control sequence.\nl.3 \\alpha x\nUndefined control sequence.\nl.4 \\beta\nUndefined control sequence.\nl.9 \\alpha").toList).dedup) ∈
      parse_latex_log "Undefined control sequence.\nl.3 \\alpha x\nUndefined control sequence.\nl.4 \\beta\nUndefined control sequence.\nl.9 \\alpha" ∧
    ((findUndefined ("Undefined control sequence.\nl.3 \\alpha x\nUndefined control sequence.\nl.4 \\beta\nUndefined control sequence.\nl.9 \\alpha").toList).dedup).length = 2 :=
  c8_dedup_two
    "Undefined control sequence.\nl.3 \\alpha x\nUndefined control sequence.\nl.4 \\beta\nUndefined control sequence.\nl.9 \\alpha"
    (by decide) ⟨"\\alpha", by decide⟩

/-! ## C3: missing body-close marker -/

/-- C3 counterexample: the claim says the non-compiling validation path does
not report a structural error for a missing `\end{document}`. For a source
with only that marker missing, `validate_latex` reports exactly that error
and `valid = false`. -/
theorem c3_counterexample :
    (validate_latex "\\documentclass{article}\n\\begin{document}\nhello").valid = false ∧
    "Missing \\end{document}" ∈
      (validate_latex "\\documentclass{article}\n\\begin{document}\nhello").errors := by
  constructor <;> decide

/-- C3 (amended): for a source missing only the body-close marker, the
compile path auto-repairs by appending `\end{document}` to the right-stripped
content and continues into compilation; the non-compiling `validate_latex`
path, however, reports "Missing \end{document}" as an error with
`valid = false` instead of auto-repairing. -/
theorem c3_auto_repair (env : Env) (src name : String)
    (h1 : containsSub src "\\documentclass" = true)
    (h2 : containsSub src "\\begin{document}" = true)
    (h3 : containsSub src "\\end{document}" = false) :
    (compile_latex_to_pdf env src name).texWritten =
      some (pyRstrip src ++ "\n\\end{document}") ∧
    (compile_latex_to_pdf env src name).latexmkAttempts = 1 ∧
    (validate_latex src).valid = false ∧
    "Missing \\end{document}" ∈ (validate_latex src).errors := by
  have hred := compile_latex_valid env src name h1 h2
  rw [h3] at hred
  simp only [if_pos rfl] at hred
  have hshape := compile_run_shape env (pyRstrip src ++ "\n\\end{document}") name
  refine ⟨?_, ?_, ?_, ?_⟩
  · rw [hred]
    exact hshape.1
  · rw [hred]
    exact hshape.2.1
  · simp [validate_latex, h1, h2, h3]
  · simp [validate_latex, h1, h2, h3]

/-- C3 witness: a concrete source with only the closing marker missing is
repaired on the compile path and flagged on the validate path. -/
theorem c3_auto_repair_witness :
    (compile_latex_to_pdf ⟨"/tmp", 42, .ok ⟨0, "", ""⟩, fun _ => .ok ⟨1, "", ""⟩, none, true⟩
        "\\documentclass{article}\n\\begin{document}\nhello" "resume").texWritten =
      some (pyRstrip "\\documentclass{article}\n\\begin{document}\nhello" ++ "\n\\end{document}") ∧
    (compile_latex_to_pdf ⟨"/tmp", 42, .ok ⟨0, "", ""⟩, fun _ => .ok ⟨1, "", ""⟩, none, true⟩
        "\\documentclass{article}\n\\begin{document}\nhello" "resume").latexmkAttempts = 1 ∧
    (validate_latex "\\documentclass{article}\n\\begin{document}\nhello").valid = false ∧
    "Missing \\end{document}" ∈
      (validate_latex "\\documentclass{article}\n\\begin{document}\nhello").errors :=
  c3_auto_repair ⟨"/tmp", 42, .ok ⟨0, "", ""⟩, fun _ => .ok ⟨1, "", ""⟩, none, true⟩
    "\\documentclass{article}\n\\begin{document}\nhello" "resume"
    (by decide) (by decide) (by decide)

/-! ## C9: workspace retention -/

/-- A complete valid source document used by several concrete checks. -/
def fullDoc : String :=
  "\\documentclass{article}\n\\begin{document}\nhello\n\\end{document}"

/-- C9 counterexample: the claim says the workspace is cleaned up after a
successful compilation. A concrete successful compilation returns the PDF
path and never invokes `cleanup`. -/
theorem c9_counterexample :
    (compile_latex_to_pdf ⟨"/tmp", 42, .ok ⟨0, "", ""⟩, fun _ => .ok ⟨1, "", ""⟩, none, true⟩
        fullDoc "resume").result = .ok "/tmp/cvitae_latex/resume_42/resume.pdf" ∧
    (compile_latex_to_pdf ⟨"/tmp", 42, .ok ⟨0, "", ""⟩, fun _ => .ok ⟨1, "", ""⟩, none, true⟩
        fullDoc "resume").cleanupCalled = false :=
  ⟨rfl, rfl⟩

/-- C9 (amended): the service never removes a job's workspace: `cleanup` is
invoked neither by `compile_latex_to_pdf` (on failure or on success) nor by
the `/compile/pdf` endpoint; the `cleanup` helper itself tolerates a failed
removal without propagating it. -/
theorem c9_workspace_never_cleaned (env : Env) (src name : String) (data : ReqData)
    (o : Except String Unit) :
    (compile_latex_to_pdf env src name).cleanupCalled = false ∧
    (∀ t, (compile_to_pdf env data).compileTrace = some t → t.cleanupCalled = false) ∧
    cleanup o = .ok () := by
  refine ⟨compile_cleanup_false env src name, ?_, ?_⟩
  · intro t ht
    unfold compile_to_pdf at ht
    cases hd : data.latex with
    | none =>
      rw [hd] at ht
      simp at ht
    | some s =>
      rw [hd] at ht
      dsimp only at ht
      cases hr : (compile_latex_to_pdf env s (data.name.getD "resume")).result with
      | error e =>
        rw [hr] at ht
        simp only [Option.some_inj] at ht
        rw [← ht]
        exact compile_cleanup_false env s (data.name.getD "resume")
      | ok p =>
        rw [hr] at ht
        simp only [Option.some_inj] at ht
        rw [← ht]
        exact compile_cleanup_false env s (data.name.getD "resume")
  · cases o with
    | ok u => cases u; rfl
    | error e => rfl

/-- C9 witness: concrete instantiation of the no-cleanup theorem. -/
theorem c9_workspace_never_cleaned_witness :
    (compile_latex_to_pdf ⟨"/tmp", 42, .ok ⟨0, "", ""⟩, fun _ => .ok ⟨1, "", ""⟩, none, true⟩
        fullDoc "resume").cleanupCalled = false ∧
    (∀ t, (compile_to_pdf ⟨"/tmp", 42, .ok ⟨0, "", ""⟩, fun _ => .ok ⟨1, "", ""⟩, none, true⟩
        ⟨some fullDoc, none, none, none⟩).compileTrace = some t → t.cleanupCalled = false) ∧
    cleanup (.error "busy") = .ok () :=
  c9_workspace_never_cleaned
    ⟨"/tmp", 42, .ok ⟨0, "", ""⟩, fun _ => .ok ⟨1, "", ""⟩, none, true⟩
    fullDoc "resume" ⟨some fullDoc, none, none, none⟩ (.error "busy")

/-! ## C2: zero exit without a PDF is a failure -/

/-- C2: `compile_latex_to_pdf` returns a PDF path only when the final chosen
strategy exited zero and the PDF file exists; when the chosen strategy exits
zero but the PDF file is absent, it raises "PDF file was not generated"
instead of returning success. -/
theorem c2_output_missing (env : Env) (src name : String) (r0 : ProcResult)
    (hlm : env.latexmkRun = .ok r0) :
    (∀ p, (compile_latex_to_pdf env src name).result = .ok p →
        (chosenResult env r0).1.returncode = 0 ∧ env.pdfExists = true) ∧
    (containsSub src "\\documentclass" = true →
     containsSub src "\\begin{document}" = true →
     (chosenResult env r0).1.returncode = 0 →
     env.pdfExists = false →
     (compile_latex_to_pdf env src name).result =
       .error "PDF file was not generated") := by
  constructor
  · intro p hp
    unfold compile_latex_to_pdf at hp
    split at hp
    · simp at hp
    · split at hp
      · simp at hp
      · split at hp
        · simp at hp
        · exact compile_run_result_ok env _ name r0 p hlm hp
  · intro h1 h2 hz hpx
    rw [compile_latex_valid env src name h1 h2]
    simp only [compile_run, hlm]
    rw [if_neg (fun hc => hc hz), if_pos hpx]

/-- C2 witness: a run whose latexmk exits zero but leaves no PDF raises the
output-missing failure. -/
theorem c2_output_missing_witness :
    (∀ p, (compile_latex_to_pdf ⟨"/tmp", 42, .ok ⟨0, "", ""⟩, fun _ => .ok ⟨1, "", ""⟩, none, false⟩
        fullDoc "resume").result = .ok p →
        (chosenResult ⟨"/tmp", 42, .ok ⟨0, "", ""⟩, fun _ => .ok ⟨1, "", ""⟩, none, false⟩
          ⟨0, "", ""⟩).1.returncode = 0 ∧
        (⟨"/tmp", 42, .ok ⟨0, "", ""⟩, fun _ => .ok ⟨1, "", ""⟩, none, false⟩ : Env).pdfExists = true) ∧
    (containsSub fullDoc "\\documentclass" = true →
     containsSub fullDoc "\\begin{document}" = true →
     (chosenResult ⟨"/tmp", 42, .ok ⟨0, "", ""⟩, fun _ => .ok ⟨1, "", ""⟩, none, false⟩
        ⟨0, "", ""⟩).1.returncode = 0 →
     (⟨"/tmp", 42, .ok ⟨0, "", ""⟩, fun _ => .ok ⟨1, "", ""⟩, none, false⟩ : Env).pdfExists = false →
     (compile_latex_to_pdf ⟨"/tmp", 42, .ok ⟨0, "", ""⟩, fun _ => .ok ⟨1, "", ""⟩, none, false⟩
        fullDoc "resume").result = .error "PDF file was not generated") :=
  c2_output_missing ⟨"/tmp", 42, .ok ⟨0, "", ""⟩, fun _ => .ok ⟨1, "", ""⟩, none, false⟩
    fullDoc "resume" ⟨0, "", ""⟩ rfl

/-! ## C1: fallback strategy behavior -/

/-- C1 counterexample: the claim says that if a fallback pass succeeds
(exits zero) the job's final outcome is success. Here latexmk fails, the
first fallback pass exits zero, yet because the PDF file does not exist the
job's outcome is the output-missing failure, not success. -/
theorem c1_counterexample :
    (try_direct_pdflatex
        (⟨"/tmp", 42, .ok ⟨1, "", ""⟩, fun _ => .ok ⟨0, "", ""⟩, none, false⟩ : Env).pdflatexRuns).1.returncode = 0 ∧
    (compile_latex_to_pdf ⟨"/tmp", 42, .ok ⟨1, "", ""⟩, fun _ => .ok ⟨0, "", ""⟩, none, false⟩
        fullDoc "resume").result = .error "PDF file was not generated" :=
  ⟨rfl, rfl⟩

/-- C1 (amended): if the primary latexmk strategy exits nonzero, the fallback
is entered after exactly one primary attempt and runs at most 3 sequential
passes; the first pass that exits zero is returned and later passes are not
run; if no pass exits zero the third pass's result is returned; and if a
fallback pass exits zero and the expected PDF file exists in the workspace,
the job's final outcome is success. -/
theorem c1_fallback (env : Env) (src name : String) (r0 : ProcResult) (rs : Nat → ProcResult)
    (h1 : containsSub src "\\documentclass" = true)
    (h2 : containsSub src "\\begin{document}" = true)
    (hlm : env.latexmkRun = .ok r0)
    (hfail : ¬ r0.returncode = 0)
    (hok : ∀ j, env.pdflatexRuns j = .ok (rs j)) :
    (compile_latex_to_pdf env src name).latexmkAttempts = 1 ∧
    (compile_latex_to_pdf env src name).fallbackPasses =
      (try_direct_pdflatex env.pdflatexRuns).2 ∧
    (try_direct_pdflatex env.pdflatexRuns).2 ≤ 3 ∧
    (∀ k, k < 3 → (rs k).returncode = 0 →
      (∀ j, j < k → ¬ (rs j).returncode = 0) →
      try_direct_pdflatex env.pdflatexRuns = (rs k, k + 1)) ∧
    ((∀ j, j < 3 → ¬ (rs j).returncode = 0) →
      try_direct_pdflatex env.pdflatexRuns = (rs 2, 3)) ∧
    (∀ k, k < 3 → (rs k).returncode = 0 →
      (∀ j, j < k → ¬ (rs j).returncode = 0) →
      env.pdfExists = true →
      (compile_latex_to_pdf env src name).result =
        .ok (work_dir_name env.tmpRoot name env.pid ++ "/" ++ name ++ ".pdf")) := by
  have hred := compile_latex_valid env src name h1 h2
  have hchosen : chosenResult env r0 = try_direct_pdflatex env.pdflatexRuns := by
    simp [chosenResult, hfail]
  refine ⟨?_, ?_, try_direct_pdflatex_passes_le env.pdflatexRuns, ?_, ?_, ?_⟩
  · rw [hred]
    exact (compile_run_shape env _ name).2.1
  · rw [hred, compile_run_passes env _ name r0 hlm, hchosen]
  · intro k hk hz hprev
    exact tdp_first_success env.pdflatexRuns rs hok k hk hz hprev
  · intro hfails
    exact tdp_all_fail env.pdflatexRuns rs hok hfails
  · intro k hk hz hprev hpdf
    have hres := tdp_first_success env.pdflatexRuns rs hok k hk hz hprev
    rw [hred]
    simp only [compile_run, hlm]
    rw [hchosen, hres]
    rw [if_neg (fun hc => hc hz)]
    rw [if_neg (by simp [hpdf])]

/-- The fallback pass results used by the C1 witness: the first pass exits
zero, the rest exit nonzero. -/
def c1wRs : Nat → ProcResult := fun j => if j = 0 then ⟨0, "", ""⟩ else ⟨1, "", ""⟩

/-- The environment used by the C1 witness: latexmk exits 1, the fallback
passes behave as `c1wRs`, and the PDF exists afterwards. -/
def c1wEnv : Env := ⟨"/tmp", 7, .ok ⟨1, "", ""⟩, fun j => .ok (c1wRs j), none, true⟩

/-- C1 witness: concrete instantiation of the fallback theorem. -/
theorem c1_fallback_witness :
    (compile_latex_to_pdf c1wEnv fullDoc "resume").latexmkAttempts = 1 ∧
    (compile_latex_to_pdf c1wEnv fullDoc "resume").fallbackPasses =
      (try_direct_pdflatex c1wEnv.pdflatexRuns).2 ∧
    (try_direct_pdflatex c1wEnv.pdflatexRuns).2 ≤ 3 ∧
    (∀ k, k < 3 → (c1wRs k).returncode = 0 →
      (∀ j, j < k → ¬ (c1wRs j).returncode = 0) →
      try_direct_pdflatex c1wEnv.pdflatexRuns = (c1wRs k, k + 1)) ∧
    ((∀ j, j < 3 → ¬ (c1wRs j).returncode = 0) →
      try_direct_pdflatex c1wEnv.pdflatexRuns = (c1wRs 2, 3)) ∧
    (∀ k, k < 3 → (c1wRs k).returncode = 0 →
      (∀ j, j < k → ¬ (c1wRs j).returncode = 0) →
      c1wEnv.pdfExists = true →
      (compile_latex_to_pdf c1wEnv fullDoc "resume").result =
        .ok (work_dir_name c1wEnv.tmpRoot "resume" c1wEnv.pid ++ "/" ++ "resume" ++ ".pdf")) :=
  c1_fallback c1wEnv fullDoc "resume" ⟨1, "", ""⟩ c1wRs
    (by decide) (by decide) rfl (by decide) (fun j => rfl)
